import Mathlib

/-!
Shallow embedding of the user/session service of `express-microservice`
(`src/services/users/src/services/service.users.ts`).

The service orchestrates registration, login, token refresh, token health
check and token revocation over two persistent collections:

* `users`   — subjects (email, bcrypt password hash, active flag, soft-delete
  timestamp, role);
* `secrets` — session records (access token, refresh token, resource type/by,
  expiry), whose Mongo `_id`s are monotonically increasing, so a
  `findOne(..).sort(\x7b _id: -1 \x7d)` query returns the most recently
  inserted matching record.

Times are modelled as natural numbers (milliseconds).  Every operation takes
the current store and the current time, and returns an `Except` result
together with the resulting store, mirroring the promise-resolve /
promise-reject structure of the source.
-/

namespace ExpressMicroservice

/-- One day in milliseconds.  Timestamps are naturals counting milliseconds. -/
def oneDayMs : Nat := 86400000

/-- Modelled from the spec: the `expiredAt(n, 'days')` helper of the shared
`@node/pkg` module (not under `src/`); spec §4.4 login step 5:
`accessTokenExpiry = now + 1 day`, `refreshTokenExpiry = now + 30 days`. -/
def expiredAtDays (now : Nat) (days : Nat) : Nat := now + days * oneDayMs

/-- Modelled from the spec: the `dateFormat` helper of the shared `@node/pkg`
module (not under `src/`).  The spec (§6 Clock, §4.4) treats every
`expiredAt` comparison as a plain timestamp comparison against `now`, so
`dateFormat` is the identity on timestamps. -/
def dateFormat (t : Nat) : Nat := t

/-- Modelled from the spec: Credential Hasher `Bcrypt.hashPassword` of the
shared `@node/pkg` module (not under `src/`); spec §4.1: a deterministic
one-way transform of the plaintext.  The `$2b$10$` prefix stands for the
bcrypt algorithm/cost header, making the hash distinct from the plaintext. -/
def hashPassword (p : String) : String := "$2b$10$" ++ p

/-- Modelled from the spec: Credential Hasher `Bcrypt.comparePassword` of the
shared `@node/pkg` module (not under `src/`); spec §4.1: verification succeeds
exactly when the plaintext hashes to the stored hash. -/
def comparePassword (p h : String) : Bool := hashPassword p == h

/-- A user document (`IUsers`), with the role name already resolved the way
`populate(\x7b path: 'roleId', select: '_id name' \x7d)` resolves it. -/
structure IUsers where
  _id : Nat
  email : String
  password : String
  active : Bool
  deletedAt : Option Nat
  roleName : String
deriving Repr, DecidableEq

/-- A session-record document (`ISecrets`). -/
structure ISecrets where
  _id : Nat
  accessToken : String
  refreshToken : String
  resourceType : String
  resourceBy : Nat
  expiredAt : Nat
deriving Repr, DecidableEq

/-- The persistent state: both collections plus the monotonic id counters the
database would use for newly inserted documents. -/
structure Store where
  users : List IUsers
  secrets : List ISecrets
  nextUserId : Nat
  nextSecretId : Nat
deriving Repr, DecidableEq

/-- `findOne(query).sort(\x7b _id: -1 \x7d)` on the secrets collection: the
matching record with the largest `_id`, i.e. the most recently inserted. -/
def findLatest (p : ISecrets → Bool) (l : List ISecrets) : Option ISecrets :=
  (l.filter p).argmax (fun s => s._id)

/-- The token pair produced by `JsonWebToken.signToken`. -/
structure TokenPair where
  accessToken : String
  refreshToken : String
deriving Repr, DecidableEq

/-- Modelled from the spec: Token Issuer `JsonWebToken.signToken` of the
shared `@node/pkg` module (not under `src/`); spec §4.2 `issue`: a signed
access token and a companion refresh token carrying subject id, email and
role name. -/
def signToken (id : Nat) (email role : String) (now : Nat) : TokenPair :=
  { accessToken := "at." ++ toString id ++ "." ++ email ++ "." ++ role ++ "." ++ toString now
    refreshToken := "rt." ++ toString id ++ "." ++ email ++ "." ++ role ++ "." ++ toString now }

/-- Modelled from the spec: Token Issuer `JsonWebToken.refreshToken` of the
shared `@node/pkg` module (not under `src/`); spec §4.2 `reissue`: a new
access token only, no new refresh token. -/
def reissueToken (id : Nat) (email role : String) (now : Nat) : String :=
  "rat." ++ toString id ++ "." ++ email ++ "." ++ role ++ "." ++ toString now

/-- The error half of `apiResponse(stat_code, stat_message)` as produced by
every `throw` / `Promise.reject` of the service. -/
structure ApiErr where
  stat_code : Nat
  stat_message : String
deriving Repr, DecidableEq

/-- `StatusCodes.BAD_REQUEST`. -/
def BAD_REQUEST : Nat := 400

/-- `StatusCodes.OK`. -/
def OK : Nat := 200

/-- Request body of `registerUsers`. -/
structure DTORegister where
  email : String
  password : String
deriving Repr, DecidableEq

/-- Request body of `loginUsers`. -/
structure DTOLogin where
  email : String
  password : String
deriving Repr, DecidableEq

/-- Request body of `refreshTokenUsers`. -/
structure DTORefreshToken where
  accessToken : String
deriving Repr, DecidableEq

/-- Request body of `healthTokenUsers` (the subject id). -/
structure DTOHealthToken where
  id : Nat
deriving Repr, DecidableEq

/-- Request body of `revokeTokenUsers` (the subject id). -/
structure DTORevokeToken where
  id : Nat
deriving Repr, DecidableEq

/-- Success payload of `loginUsers`. -/
structure LoginRes where
  accessToken : String
  refreshToken : String
  accessTokenExpired : Nat
  refreshTokenExpired : Nat
  role : String
deriving Repr, DecidableEq

/-- Success payload of `refreshTokenUsers`. -/
structure RefreshRes where
  accessToken : String
  accessTokenExpired : Nat
  role : String
deriving Repr, DecidableEq

namespace UsersService

/-- `registerUsers` (service.users.ts lines 16–30): reject with 400
`Email ... already taken` when a non-deleted user with that email exists,
otherwise hash the password and create the user.  The Mongoose user schema is
not under `src/`; per spec §3 a freshly created Subject is active, not
soft-deleted, and its role is resolved externally (modelled as `"user"`). -/
def registerUsers (body : DTORegister) (st : Store) : Except ApiErr Unit × Store :=
  match st.users.find? (fun u => u.email == body.email && u.deletedAt == none) with
  | some _ => (.error ⟨BAD_REQUEST, "Email " ++ body.email ++ " already taken"⟩, st)
  | none =>
    let newUser : IUsers :=
      { _id := st.nextUserId
        email := body.email
        password := hashPassword body.password
        active := true
        deletedAt := none
        roleName := "user" }
    (.ok (), { st with users := st.users ++ [newUser], nextUserId := st.nextUserId + 1 })

/-- `loginUsers` (service.users.ts lines 32–69): look up a non-deleted user by
email, check the active flag, verify the password, sign a token pair, insert a
new session record with `resourceType: 'login'` and a 1-day expiry, and return
the token bundle. -/
def loginUsers (body : DTOLogin) (st : Store) (now : Nat) : Except ApiErr LoginRes × Store :=
  match st.users.find? (fun u => u.email == body.email && u.deletedAt == none) with
  | none => (.error ⟨BAD_REQUEST, "Email is not registered"⟩, st)
  | some user =>
    if !user.active then
      (.error ⟨BAD_REQUEST, "User account is not active, please contact admin"⟩, st)
    else if !comparePassword body.password user.password then
      (.error ⟨BAD_REQUEST, "Email or password failed"⟩, st)
    else
      let token := signToken user._id user.email user.roleName now
      let isAccessTokenExpired := expiredAtDays now 1
      let isRefreshTokenExpired := expiredAtDays now 30
      let newSecret : ISecrets :=
        { _id := st.nextSecretId
          accessToken := token.accessToken
          refreshToken := token.refreshToken
          resourceType := "login"
          resourceBy := user._id
          expiredAt := isAccessTokenExpired }
      (.ok { accessToken := token.accessToken
             refreshToken := token.refreshToken
             accessTokenExpired := isAccessTokenExpired
             refreshTokenExpired := isRefreshTokenExpired
             role := user.roleName },
       { st with secrets := st.secrets ++ [newSecret], nextSecretId := st.nextSecretId + 1 })

/-- `refreshTokenUsers` (service.users.ts lines 71–107): find the latest
session record matching the access token with `resourceType: 'login'`, reject
with `Your accessToken is not expired` while `expiredAt > now`, re-fetch the
user, reissue an access token, and update the same record in place.  When the
user was deleted or is absent, the source dereferences `null` (`getUser._id`);
the thrown `TypeError` is caught by the generic handler and rejected as a 400
before the store update runs. -/
def refreshTokenUsers (body : DTORefreshToken) (st : Store) (now : Nat) :
    Except ApiErr RefreshRes × Store :=
  match findLatest (fun s => s.accessToken == body.accessToken && s.resourceType == "login") st.secrets with
  | none => (.error ⟨BAD_REQUEST, "AccessToken is not exist"⟩, st)
  | some getAccessToken =>
    if dateFormat getAccessToken.expiredAt > dateFormat now then
      (.error ⟨BAD_REQUEST, "Your accessToken is not expired"⟩, st)
    else
      match st.users.find? (fun u => u._id == getAccessToken.resourceBy && u.deletedAt == none) with
      | none => (.error ⟨BAD_REQUEST, "Cannot read properties of null (reading _id)"⟩, st)
      | some getUser =>
        let token := reissueToken getUser._id getUser.email getUser.roleName now
        let isAccessTokenExpired := expiredAtDays now 1
        let secrets2 := st.secrets.map (fun s =>
          if s._id = getAccessToken._id then
            { s with accessToken := token
                     resourceType := "login"
                     resourceBy := getUser._id
                     expiredAt := isAccessTokenExpired }
          else s)
        (.ok { accessToken := token
               accessTokenExpired := isAccessTokenExpired
               role := getUser.roleName },
         { st with secrets := secrets2 })

/-- `healthTokenUsers` (service.users.ts lines 109–121): reject with 400 when
the body is undefined; otherwise find the latest session record for the
subject, reject `AccessToken is not exist` when none, `AccessToken expired`
when `expiredAt < now`, and succeed otherwise.  No write is performed. -/
def healthTokenUsers (body : Option DTOHealthToken) (st : Store) (now : Nat) :
    Except ApiErr Unit × Store :=
  match body with
  | none => (.error ⟨BAD_REQUEST, "AccessToken expired"⟩, st)
  | some b =>
    match findLatest (fun s => s.resourceBy == b.id) st.secrets with
    | none => (.error ⟨BAD_REQUEST, "AccessToken is not exist"⟩, st)
    | some getAccessToken =>
      if dateFormat getAccessToken.expiredAt < dateFormat now then
        (.error ⟨BAD_REQUEST, "AccessToken expired"⟩, st)
      else (.ok (), st)

/-- `revokeTokenUsers` (service.users.ts lines 123–138): same guard, lookup
and expiry check as `healthTokenUsers`, then `findByIdAndDelete` the located
record; reject `Revoke accessToken failed` if the delete finds nothing. -/
def revokeTokenUsers (body : Option DTORevokeToken) (st : Store) (now : Nat) :
    Except ApiErr Unit × Store :=
  match body with
  | none => (.error ⟨BAD_REQUEST, "AccessToken expired"⟩, st)
  | some b =>
    match findLatest (fun s => s.resourceBy == b.id) st.secrets with
    | none => (.error ⟨BAD_REQUEST, "AccessToken is not exist"⟩, st)
    | some getAccessToken =>
      if dateFormat getAccessToken.expiredAt < dateFormat now then
        (.error ⟨BAD_REQUEST, "AccessToken expired"⟩, st)
      else
        match st.secrets.find? (fun s => s._id == getAccessToken._id) with
        | none => (.error ⟨BAD_REQUEST, "Revoke accessToken failed"⟩, st)
        | some _ =>
          (.ok (), { st with secrets := st.secrets.filter (fun s => s._id != getAccessToken._id) })

end UsersService

namespace UsersService

/-- Fixture: an active, registered user (subject id 1). -/
def w1User : IUsers :=
  { _id := 1, email := "a@x.com", password := hashPassword "pw", active := true,
    deletedAt := none, roleName := "user" }

/-- Fixture: a login session record for `w1User` expiring at time 100. -/
def w1Rec : ISecrets :=
  { _id := 1, accessToken := "t1", refreshToken := "rt1", resourceType := "login",
    resourceBy := 1, expiredAt := 100 }

/-- Fixture: a store holding `w1User` and `w1Rec`. -/
def w1St : Store := { users := [w1User], secrets := [w1Rec], nextUserId := 2, nextSecretId := 2 }

/-- Fixture: a soft-deleted user (subject id 9, `deletedAt` set). -/
def w7User : IUsers :=
  { _id := 9, email := "gone@x.com", password := hashPassword "pw", active := true,
    deletedAt := some 5, roleName := "user" }

/-- Fixture: an expired login record pointing at the soft-deleted subject 9. -/
def w7Rec : ISecrets :=
  { _id := 1, accessToken := "t9", refreshToken := "rt9", resourceType := "login",
    resourceBy := 9, expiredAt := 0 }

/-- Fixture: a store where the session record's subject is soft-deleted. -/
def w7St : Store := { users := [w7User], secrets := [w7Rec], nextUserId := 10, nextSecretId := 2 }

/-- Fixture: one registered active user with password `pw1`. -/
def c2User : IUsers :=
  { _id := 1, email := "a@x.com", password := hashPassword "pw1", active := true,
    deletedAt := none, roleName := "user" }

/-- Fixture: a store holding only `c2User`. -/
def c2St : Store := { users := [c2User], secrets := [], nextUserId := 2, nextSecretId := 1 }

/-- Fixture: an older session record for subject 7, unexpired at time 50. -/
def c3Rec1 : ISecrets :=
  { _id := 1, accessToken := "t1", refreshToken := "rt1", resourceType := "login",
    resourceBy := 7, expiredAt := 100 }

/-- Fixture: a newer session record for subject 7, already expired. -/
def c3Rec2 : ISecrets :=
  { _id := 2, accessToken := "t2", refreshToken := "rt2", resourceType := "login",
    resourceBy := 7, expiredAt := 0 }

/-- Fixture: subject 7 has an unexpired older record and an expired newer one. -/
def c3St : Store := { users := [], secrets := [c3Rec1, c3Rec2], nextUserId := 1, nextSecretId := 3 }

/-- Fixture: first of two unexpired session records for subject 7. -/
def c4Rec1 : ISecrets :=
  { _id := 1, accessToken := "t1", refreshToken := "rt1", resourceType := "login",
    resourceBy := 7, expiredAt := 100 }

/-- Fixture: second (latest) of two unexpired session records for subject 7. -/
def c4Rec2 : ISecrets :=
  { _id := 2, accessToken := "t2", refreshToken := "rt2", resourceType := "login",
    resourceBy := 7, expiredAt := 100 }

/-- Fixture: subject 7 accumulated two session records from successive logins. -/
def c4St : Store := { users := [], secrets := [c4Rec1, c4Rec2], nextUserId := 1, nextSecretId := 3 }

/-- Fixture: the store left after revoking subject 7 in `c4St`: only the older
record remains. -/
def c4St2 : Store := { users := [], secrets := [c4Rec1], nextUserId := 1, nextSecretId := 3 }

/-- Fixture: a single unexpired session record for subject 7. -/
def w3Rec : ISecrets :=
  { _id := 1, accessToken := "t1", refreshToken := "rt1", resourceType := "login",
    resourceBy := 7, expiredAt := 100 }

/-- Fixture: a store whose only session record is `w3Rec`. -/
def w3St : Store := { users := [], secrets := [w3Rec], nextUserId := 1, nextSecretId := 2 }

/-- Fixture: a single unexpired session record for subject 7 (revoke fixture). -/
def w4Rec : ISecrets :=
  { _id := 1, accessToken := "t1", refreshToken := "rt1", resourceType := "login",
    resourceBy := 7, expiredAt := 100 }

/-- Fixture: a store whose only session record is `w4Rec`. -/
def w4St : Store := { users := [], secrets := [w4Rec], nextUserId := 1, nextSecretId := 2 }

/-- Fixture: an empty store. -/
def w5St : Store := { users := [], secrets := [], nextUserId := 1, nextSecretId := 1 }

end UsersService

end ExpressMicroservice

namespace ExpressMicroservice

/-- A record returned by `findLatest` belongs to the collection and satisfies
the query. -/
theorem findLatest_mem {p : ISecrets → Bool} {l : List ISecrets} {r : ISecrets}
    (h : findLatest p l = some r) : r ∈ l ∧ p r = true :=
  List.mem_filter.mp (List.argmax_mem (Option.mem_def.mpr h))

/-- `findLatest` returns a maximal `_id` among the matching records. -/
theorem findLatest_le {p : ISecrets → Bool} {l : List ISecrets} {r : ISecrets}
    (h : findLatest p l = some r) : ∀ s ∈ l, p s = true → s._id ≤ r._id := by
  intro s hs hp
  exact List.le_of_mem_argmax (List.mem_filter.mpr ⟨hs, hp⟩) (Option.mem_def.mpr h)

/-- `findLatest` returns nothing exactly when no record matches the query. -/
theorem findLatest_eq_none {p : ISecrets → Bool} {l : List ISecrets} :
    findLatest p l = none ↔ ∀ s ∈ l, p s = false := by
  simp [findLatest, List.argmax_eq_none, List.filter_eq_nil_iff]

/-- The bcrypt hash of a password is never the plaintext (the algorithm header
prefix makes it strictly longer). -/
theorem hashPassword_ne_plain (p : String) : hashPassword p ≠ p := by
  intro h
  have h2 := congrArg String.length h
  rw [hashPassword, String.length_append] at h2
  have h7 : ("$2b$10$" : String).length = 7 := rfl
  omega

/-- Removing the records sharing `r`'s `_id` from a collection with no
duplicate `_id`s removes exactly one record. -/
theorem length_filter_ne_of_nodup (l : List ISecrets) (r : ISecrets) (hr : r ∈ l)
    (hnd : (l.map (fun s => s._id)).Nodup) :
    (l.filter (fun s => s._id != r._id)).length + 1 = l.length := by
  induction l with
  | nil => cases hr
  | cons a t ih =>
    rw [List.map_cons, List.nodup_cons] at hnd
    by_cases hid : a._id = r._id
    · have hfilter_t : t.filter (fun s => s._id != r._id) = t := by
        rw [List.filter_eq_self]
        intro s hs
        have hne : s._id ≠ r._id := by
          intro he
          exact hnd.1 (List.mem_map.mpr ⟨s, hs, by rw [he, hid]⟩)
        simpa using hne
      simp [List.filter_cons, hid, hfilter_t]
    · have hrt : r ∈ t := by
        cases List.mem_cons.mp hr with
        | inl h => exact absurd (congrArg (fun s => s._id) h.symm) hid
        | inr h => exact h
      have ihh := ih hrt hnd.2
      have hkeep : (a._id != r._id) = true := by simpa using hid
      rw [List.filter_cons, if_pos hkeep]
      simp only [List.length_cons]
      omega

namespace UsersService

/-- Claim C10: `healthTokenUsers` never writes: for every body, store and
time, the store returned by the call is exactly the store it was given,
whether the call succeeds or fails. -/
theorem healthToken_no_writes (body : Option DTOHealthToken) (st : Store) (now : Nat) :
    (healthTokenUsers body st now).2 = st := by
  unfold healthTokenUsers
  repeat' split
  all_goals rfl

/-- Claim C8: when the request body is absent, both `healthTokenUsers` and
`revokeTokenUsers` fail with a 400 bad-request error (the spec's `BadInput`
kind), the store is untouched, and the result does not depend on the store at
all — the guard fires before any store lookup. -/
theorem absent_body_bad_input (st st2 : Store) (now : Nat) :
    healthTokenUsers none st now = (.error ⟨BAD_REQUEST, "AccessToken expired"⟩, st) ∧
    revokeTokenUsers none st now = (.error ⟨BAD_REQUEST, "AccessToken expired"⟩, st) ∧
    (healthTokenUsers none st now).1 = (healthTokenUsers none st2 now).1 ∧
    (revokeTokenUsers none st now).1 = (revokeTokenUsers none st2 now).1 :=
  ⟨rfl, rfl, rfl, rfl⟩

/-- Claim C1: when `refreshTokenUsers` finds a matching `login` session
record, it fails with the `TokenNotExpired` error (`Your accessToken is not
expired`) whenever `expiredAt > now`; and whenever `expiredAt ≤ now` and the
subject still exists non-deleted, it succeeds and both the returned and the
stored new `expiredAt` are strictly later than the old one. -/
theorem refreshToken_expiry_policy (body : DTORefreshToken) (st : Store) (now : Nat)
    (record : ISecrets)
    (hfind : findLatest (fun s => s.accessToken == body.accessToken && s.resourceType == "login")
      st.secrets = some record) :
    (now < record.expiredAt →
      refreshTokenUsers body st now =
        (.error ⟨BAD_REQUEST, "Your accessToken is not expired"⟩, st)) ∧
    (record.expiredAt ≤ now →
      ∀ user, st.users.find? (fun u => u._id == record.resourceBy && u.deletedAt == none) = some user →
        ∃ res st2, refreshTokenUsers body st now = (.ok res, st2) ∧
          record.expiredAt < res.accessTokenExpired ∧
          ∀ s ∈ st2.secrets, s._id = record._id → record.expiredAt < s.expiredAt) := by
  constructor
  · intro hlt
    simp [refreshTokenUsers, hfind, dateFormat, hlt]
  · intro hle user huser
    refine ⟨⟨reissueToken user._id user.email user.roleName now, expiredAtDays now 1, user.roleName⟩,
      { st with secrets := st.secrets.map (fun s =>
          if s._id = record._id then
            { s with accessToken := reissueToken user._id user.email user.roleName now,
                     resourceType := "login", resourceBy := user._id,
                     expiredAt := expiredAtDays now 1 }
          else s) }, ?_, ?_, ?_⟩
    · simp [refreshTokenUsers, hfind, dateFormat, Nat.not_lt.mpr hle, huser]
    · show record.expiredAt < expiredAtDays now 1
      simp only [expiredAtDays, oneDayMs]
      omega
    · intro s hs hid
      rcases List.mem_map.mp hs with ⟨a, ha, rfl⟩
      by_cases h : a._id = record._id
      · rw [if_pos h]
        show record.expiredAt < expiredAtDays now 1
        simp only [expiredAtDays, oneDayMs]
        omega
      · rw [if_neg h] at hid
        exact absurd hid h

/-- Witness for claim C1: in a store with one login record expiring at 100,
refreshing at time 100 succeeds and pushes `expiredAt` strictly later. -/
theorem refreshToken_expiry_policy_witness :
    ∃ res st2, refreshTokenUsers ⟨"t1"⟩ w1St 100 = (.ok res, st2) ∧
      w1Rec.expiredAt < res.accessTokenExpired ∧
      ∀ s ∈ st2.secrets, s._id = w1Rec._id → w1Rec.expiredAt < s.expiredAt :=
  (refreshToken_expiry_policy ⟨"t1"⟩ w1St 100 w1Rec rfl).2 (by decide) w1User rfl

/-- Claim C7: when the matching session record is expired but the subject it
names is soft-deleted or absent, `refreshTokenUsers` fails (with the caught
null-dereference turned into a 400 rejection) and the store is unchanged. -/
theorem refreshToken_missing_subject_fails (body : DTORefreshToken) (st : Store) (now : Nat)
    (record : ISecrets)
    (hfind : findLatest (fun s => s.accessToken == body.accessToken && s.resourceType == "login")
      st.secrets = some record)
    (hexp : record.expiredAt ≤ now)
    (huser : st.users.find? (fun u => u._id == record.resourceBy && u.deletedAt == none) = none) :
    refreshTokenUsers body st now =
      (.error ⟨BAD_REQUEST, "Cannot read properties of null (reading _id)"⟩, st) := by
  simp [refreshTokenUsers, hfind, dateFormat, Nat.not_lt.mpr hexp, huser]

/-- Witness for claim C7: refreshing the expired record of the soft-deleted
subject 9 fails and leaves the store as it was. -/
theorem refreshToken_missing_subject_fails_witness :
    refreshTokenUsers ⟨"t9"⟩ w7St 10 =
      (.error ⟨BAD_REQUEST, "Cannot read properties of null (reading _id)"⟩, w7St) :=
  refreshToken_missing_subject_fails ⟨"t9"⟩ w7St 10 w7Rec rfl (by decide) rfl

/-- Counterexample to claim C2: against the same store, login with an
unregistered email and login with a registered email but wrong password fail
with the same status code but with different messages — the first message even
states that the email is not registered, so the message families differ and
user enumeration is possible. -/
theorem login_enumeration_messages_differ :
    (loginUsers ⟨"b@x.com", "pw1"⟩ c2St 0).1 = .error ⟨BAD_REQUEST, "Email is not registered"⟩ ∧
    (loginUsers ⟨"a@x.com", "wrong"⟩ c2St 0).1 = .error ⟨BAD_REQUEST, "Email or password failed"⟩ ∧
    "Email is not registered" ≠ "Email or password failed" :=
  ⟨rfl, rfl, by decide⟩

/-- Claim C2 amended: for every store, a login whose email matches no
non-deleted user fails with 400 `Email is not registered`, while a login whose
email matches an active user but whose password fails verification fails with
400 `Email or password failed`: the error kind (status code) is the same but
the messages are distinct. -/
theorem login_failures_same_code_distinct_messages (st : Store) (now : Nat)
    (e1 p1 e2 p2 : String) (user : IUsers)
    (h1 : st.users.find? (fun u => u.email == e1 && u.deletedAt == none) = none)
    (h2 : st.users.find? (fun u => u.email == e2 && u.deletedAt == none) = some user)
    (hact : user.active = true)
    (hpw : comparePassword p2 user.password = false) :
    (loginUsers ⟨e1, p1⟩ st now).1 = .error ⟨BAD_REQUEST, "Email is not registered"⟩ ∧
    (loginUsers ⟨e2, p2⟩ st now).1 = .error ⟨BAD_REQUEST, "Email or password failed"⟩ ∧
    "Email is not registered" ≠ "Email or password failed" := by
  refine ⟨?_, ?_, by decide⟩
  · simp [loginUsers, h1]
  · simp [loginUsers, h2, hact, hpw]

/-- Witness for the amended claim C2, on a store with the single registered
user `a@x.com`. -/
theorem login_failures_same_code_distinct_messages_witness :
    (loginUsers ⟨"b@x.com", "pw1"⟩ c2St 0).1 = .error ⟨BAD_REQUEST, "Email is not registered"⟩ ∧
    (loginUsers ⟨"a@x.com", "wrong"⟩ c2St 0).1 = .error ⟨BAD_REQUEST, "Email or password failed"⟩ ∧
    "Email is not registered" ≠ "Email or password failed" :=
  login_failures_same_code_distinct_messages c2St 0 "b@x.com" "pw1" "a@x.com" "wrong" c2User
    rfl rfl rfl rfl

/-- Counterexample to claim C3: in `c3St` subject 7 has a session record
(`c3Rec1`) with `expiredAt = 100 ≥ now = 50`, yet `healthTokenUsers` fails
with `AccessToken expired` because the most recently inserted record
(`c3Rec2`) is expired — the right-to-left direction of the claimed
equivalence is false. -/
theorem healthToken_not_iff_exists_unexpired :
    c3Rec1 ∈ c3St.secrets ∧ c3Rec1.resourceBy = 7 ∧ (50 : Nat) ≤ c3Rec1.expiredAt ∧
    (healthTokenUsers (some ⟨7⟩) c3St 50).1 = .error ⟨BAD_REQUEST, "AccessToken expired"⟩ :=
  ⟨by decide, rfl, by decide, rfl⟩

/-- Claim C3 amended: `healthTokenUsers` succeeds iff the most recently
inserted session record for the subject exists and has `expiredAt ≥ now`; in
particular it fails `AccessToken is not exist` when no record exists for the
subject, and `AccessToken expired` when that latest record's
`expiredAt < now`. -/
theorem healthToken_latest_record_policy (b : DTOHealthToken) (st : Store) (now : Nat) :
    ((healthTokenUsers (some b) st now).1 = .ok () ↔
      ∃ record, findLatest (fun s => s.resourceBy == b.id) st.secrets = some record ∧
        now ≤ record.expiredAt) ∧
    (findLatest (fun s => s.resourceBy == b.id) st.secrets = none →
      healthTokenUsers (some b) st now = (.error ⟨BAD_REQUEST, "AccessToken is not exist"⟩, st)) ∧
    (∀ record, findLatest (fun s => s.resourceBy == b.id) st.secrets = some record →
      record.expiredAt < now →
      healthTokenUsers (some b) st now = (.error ⟨BAD_REQUEST, "AccessToken expired"⟩, st)) := by
  cases hf : findLatest (fun s => s.resourceBy == b.id) st.secrets with
  | none =>
    refine ⟨?_, fun _ => ?_, fun record hr => by simp [hf] at hr⟩
    · simp [healthTokenUsers, hf]
    · simp [healthTokenUsers, hf]
  | some g =>
    by_cases hlt : g.expiredAt < now
    · refine ⟨?_, by simp [hf], ?_⟩
      · simp only [healthTokenUsers, hf, dateFormat]
        rw [if_pos hlt]
        simp [hf]
        omega
      · intro record hr hexp
        injection hr with hr
        subst hr
        simp only [healthTokenUsers, hf, dateFormat]
        rw [if_pos hexp]
    · refine ⟨?_, by simp [hf], ?_⟩
      · simp only [healthTokenUsers, hf, dateFormat]
        rw [if_neg hlt]
        simp [hf]
        omega
      · intro record hr hexp
        injection hr with hr
        subst hr
        exact absurd hexp hlt

/-- Witness for the amended claim C3: with a single unexpired record the
health check succeeds, via the equivalence. -/
theorem healthToken_latest_record_policy_witness :
    (healthTokenUsers (some ⟨7⟩) w3St 50).1 = .ok () :=
  ((healthToken_latest_record_policy ⟨7⟩ w3St 50).1).mpr ⟨w3Rec, rfl, by decide⟩

/-- Counterexample to claim C4: subject 7 accumulated two session records;
revoking succeeds (deleting only the latest record), and the subsequent
health check succeeds on the surviving older record instead of failing with
`NotFound` (`AccessToken is not exist`). -/
theorem revoke_then_health_multi_record :
    revokeTokenUsers (some ⟨7⟩) c4St 50 = (.ok (), c4St2) ∧
    (healthTokenUsers (some ⟨7⟩) c4St2 50).1 = .ok () ∧
    (Except.ok () : Except ApiErr Unit) ≠ .error ⟨BAD_REQUEST, "AccessToken is not exist"⟩ :=
  ⟨rfl, rfl, by simp⟩

/-- Claim C4 amended: if the subject has exactly one session record (and the
revoke succeeds on it), then the subsequent health check fails with
`AccessToken is not exist` (`NotFound`); with multiple accumulated records
only the latest is deleted, so the health check can still find an older one. -/
theorem revoke_single_record_then_health_not_found (b : DTORevokeToken) (st : Store) (now : Nat)
    (record : ISecrets)
    (hfind : findLatest (fun s => s.resourceBy == b.id) st.secrets = some record)
    (hexp : now ≤ record.expiredAt)
    (huniq : st.secrets.filter (fun s => s.resourceBy == b.id) = [record]) :
    ∃ st2, revokeTokenUsers (some b) st now = (.ok (), st2) ∧
      (healthTokenUsers (some ⟨b.id⟩) st2 now).1 =
        .error ⟨BAD_REQUEST, "AccessToken is not exist"⟩ := by
  have hmem := (findLatest_mem hfind).1
  cases hdel : st.secrets.find? (fun s => s._id == record._id) with
  | none =>
    exact absurd (List.find?_eq_none.mp hdel record hmem) (by simp)
  | some x =>
    refine ⟨{ st with secrets := st.secrets.filter (fun s => s._id != record._id) }, ?_, ?_⟩
    · simp [revokeTokenUsers, hfind, dateFormat, Nat.not_lt.mpr hexp, hdel]
    · have hnone : findLatest (fun s => s.resourceBy == b.id)
          (st.secrets.filter (fun s => s._id != record._id)) = none := by
        rw [findLatest_eq_none]
        intro s hs
        rcases List.mem_filter.mp hs with ⟨hsl, hid⟩
        by_contra hby
        have hsby : (s.resourceBy == b.id) = true := by
          cases hq : s.resourceBy == b.id with
          | true => rfl
          | false => exact absurd hq hby
        have hsmem : s ∈ st.secrets.filter (fun s => s.resourceBy == b.id) :=
          List.mem_filter.mpr ⟨hsl, hsby⟩
        rw [huniq] at hsmem
        have hs_eq : s = record := by simpa using hsmem
        subst hs_eq
        simp at hid
      simp [healthTokenUsers, hnone]

/-- Witness for the amended claim C4: one record, revoke, then health check
reports the record gone. -/
theorem revoke_single_record_then_health_not_found_witness :
    ∃ st2, revokeTokenUsers (some ⟨7⟩) w4St 50 = (.ok (), st2) ∧
      (healthTokenUsers (some ⟨7⟩) st2 50).1 =
        .error ⟨BAD_REQUEST, "AccessToken is not exist"⟩ :=
  revoke_single_record_then_health_not_found ⟨7⟩ w4St 50 w4Rec rfl (by decide) rfl

/-- Claim C5: after a successful registration, registering the same email
again fails with the conflict error, and every user the registration added
stores the bcrypt hash of the password, never the plaintext. -/
theorem register_conflict_and_hashed (body : DTORegister) (st st2 : Store)
    (hreg : registerUsers body st = (.ok (), st2)) :
    (registerUsers body st2).1 =
      .error ⟨BAD_REQUEST, "Email " ++ body.email ++ " already taken"⟩ ∧
    ∀ u ∈ st2.users, u ∉ st.users →
      u.password = hashPassword body.password ∧ u.password ≠ body.password := by
  cases hfind : st.users.find? (fun u => u.email == body.email && u.deletedAt == none) with
  | some u0 =>
    simp [registerUsers, hfind] at hreg
  | none =>
    simp only [registerUsers, hfind] at hreg
    have hst2 : st2 = { st with
        users := st.users ++
          [⟨st.nextUserId, body.email, hashPassword body.password, true, none, "user"⟩],
        nextUserId := st.nextUserId + 1 } :=
      (congrArg Prod.snd hreg).symm
    subst hst2
    constructor
    · have hfind2 : (st.users ++
          [(⟨st.nextUserId, body.email, hashPassword body.password, true, none, "user"⟩ : IUsers)]).find?
            (fun u => u.email == body.email && u.deletedAt == none) =
          some ⟨st.nextUserId, body.email, hashPassword body.password, true, none, "user"⟩ := by
        rw [List.find?_append, hfind]
        simp [List.find?]
      simp [registerUsers, hfind2]
    · intro u hu hnot
      rcases List.mem_append.mp hu with h | h
      · exact absurd h hnot
      · have hu_eq : u =
            ⟨st.nextUserId, body.email, hashPassword body.password, true, none, "user"⟩ := by
          simpa using h
        subst hu_eq
        exact ⟨rfl, hashPassword_ne_plain body.password⟩

/-- Witness for claim C5: registering `a@x.com` into the empty store and then
registering it again yields the conflict error. -/
theorem register_conflict_and_hashed_witness :
    (registerUsers ⟨"a@x.com", "pw"⟩ (registerUsers ⟨"a@x.com", "pw"⟩ w5St).2).1 =
      .error ⟨BAD_REQUEST, "Email a@x.com already taken"⟩ :=
  (register_conflict_and_hashed ⟨"a@x.com", "pw"⟩ w5St _ rfl).1

/-- Claim C6: a successful refresh updates the matched session record in
place: in the resulting store, the matched record keeps its `_id`,
`refreshToken`, `resourceType` and `resourceBy` (the latter two are rewritten
to their existing values) and takes the new `accessToken` and `expiredAt`,
while every other record (and the users collection) is unchanged.  The
`_id`-uniqueness hypothesis reflects that Mongo `_id`s are unique. -/
theorem refreshToken_updates_in_place (body : DTORefreshToken) (st : Store) (now : Nat)
    (record : ISecrets) (user : IUsers)
    (hnd : (st.secrets.map (fun s => s._id)).Nodup)
    (hfind : findLatest (fun s => s.accessToken == body.accessToken && s.resourceType == "login")
      st.secrets = some record)
    (hexp : record.expiredAt ≤ now)
    (huser : st.users.find? (fun u => u._id == record.resourceBy && u.deletedAt == none) = some user) :
    ∃ res st2, refreshTokenUsers body st now = (.ok res, st2) ∧
      st2.users = st.users ∧ st2.nextSecretId = st.nextSecretId ∧
      st2.secrets = st.secrets.map (fun s =>
        if s._id = record._id then
          { s with accessToken := res.accessToken, expiredAt := res.accessTokenExpired }
        else s) := by
  have hmem := findLatest_mem hfind
  have hrecord_type : record.resourceType = "login" := by
    have hp := hmem.2
    simp only [Bool.and_eq_true, beq_iff_eq] at hp
    exact hp.2
  have huid : user._id = record.resourceBy := by
    have hp := List.find?_some huser
    simp only [Bool.and_eq_true, beq_iff_eq] at hp
    exact hp.1
  refine ⟨⟨reissueToken user._id user.email user.roleName now, expiredAtDays now 1, user.roleName⟩,
    { st with secrets := st.secrets.map (fun s =>
        if s._id = record._id then
          { s with accessToken := reissueToken user._id user.email user.roleName now,
                   resourceType := "login", resourceBy := user._id,
                   expiredAt := expiredAtDays now 1 }
        else s) }, ?_, rfl, rfl, ?_⟩
  · simp [refreshTokenUsers, hfind, dateFormat, Nat.not_lt.mpr hexp, huser]
  · show st.secrets.map _ = st.secrets.map _
    apply List.map_congr_left
    intro a ha
    by_cases hid : a._id = record._id
    · have ha_eq : a = record := List.inj_on_of_nodup_map hnd ha hmem.1 hid
      subst ha_eq
      rw [if_pos hid, if_pos hid, huid, ← hrecord_type]
    · rw [if_neg hid, if_neg hid]

/-- Witness for claim C6: refreshing the single expired record of `w1St`
rewrites exactly that record's `accessToken` and `expiredAt`. -/
theorem refreshToken_updates_in_place_witness :
    ∃ res st2, refreshTokenUsers ⟨"t1"⟩ w1St 100 = (.ok res, st2) ∧
      st2.users = w1St.users ∧ st2.nextSecretId = w1St.nextSecretId ∧
      st2.secrets = w1St.secrets.map (fun s =>
        if s._id = w1Rec._id then
          { s with accessToken := res.accessToken, expiredAt := res.accessTokenExpired }
        else s) :=
  refreshToken_updates_in_place ⟨"t1"⟩ w1St 100 w1Rec w1User (by decide) rfl (by decide) rfl

/-- Claim C9: a successful revoke deletes exactly one session record — the
one with the largest `_id` among the subject's records — leaves every other
record (including the subject's older ones) in place, and the subject retains
one record fewer.  The `_id`-uniqueness hypothesis reflects that Mongo `_id`s
are unique. -/
theorem revoke_deletes_latest_only (b : DTORevokeToken) (st : Store) (now : Nat)
    (record : ISecrets)
    (hnd : (st.secrets.map (fun s => s._id)).Nodup)
    (hfind : findLatest (fun s => s.resourceBy == b.id) st.secrets = some record)
    (hexp : now ≤ record.expiredAt) :
    ∃ st2, revokeTokenUsers (some b) st now = (.ok (), st2) ∧
      st2.secrets = st.secrets.filter (fun s => s._id != record._id) ∧
      record ∈ st.secrets ∧ record.resourceBy = b.id ∧
      (∀ s ∈ st.secrets, s.resourceBy = b.id → s._id ≤ record._id) ∧
      (∀ s ∈ st.secrets, s._id ≠ record._id → s ∈ st2.secrets) ∧
      st2.secrets.length + 1 = st.secrets.length ∧
      (st2.secrets.filter (fun s => s.resourceBy == b.id)).length + 1 =
        (st.secrets.filter (fun s => s.resourceBy == b.id)).length := by
  have hmem := findLatest_mem hfind
  have hrby : record.resourceBy = b.id := by simpa using hmem.2
  cases hdel : st.secrets.find? (fun s => s._id == record._id) with
  | none =>
    exact absurd (List.find?_eq_none.mp hdel record hmem.1) (by simp)
  | some x =>
    refine ⟨{ st with secrets := st.secrets.filter (fun s => s._id != record._id) },
      ?_, rfl, hmem.1, hrby, ?_, ?_, ?_, ?_⟩
    · simp [revokeTokenUsers, hfind, dateFormat, Nat.not_lt.mpr hexp, hdel]
    · intro s hs hsby
      exact findLatest_le hfind s hs (by simpa using hsby)
    · intro s hs hne
      exact List.mem_filter.mpr ⟨hs, by simpa using hne⟩
    · exact length_filter_ne_of_nodup st.secrets record hmem.1 hnd
    · have hcomm : (st.secrets.filter (fun s => s._id != record._id)).filter
          (fun s => s.resourceBy == b.id) =
          (st.secrets.filter (fun s => s.resourceBy == b.id)).filter
            (fun s => s._id != record._id) := by
        rw [List.filter_filter, List.filter_filter]
        exact List.filter_congr (fun x _ => Bool.and_comm _ _)
      show ((st.secrets.filter (fun s => s._id != record._id)).filter
          (fun s => s.resourceBy == b.id)).length + 1 = _
      rw [hcomm]
      apply length_filter_ne_of_nodup
      · exact List.mem_filter.mpr ⟨hmem.1, hmem.2⟩
      · exact ((List.filter_sublist st.secrets).map (fun s => s._id)).nodup hnd

/-- Witness for claim C9: revoking subject 7 in the two-record store `c4St`
deletes exactly the latest record `c4Rec2` and keeps `c4Rec1`. -/
theorem revoke_deletes_latest_only_witness :
    ∃ st2, revokeTokenUsers (some ⟨7⟩) c4St 50 = (.ok (), st2) ∧
      st2.secrets = c4St.secrets.filter (fun s => s._id != c4Rec2._id) ∧
      c4Rec2 ∈ c4St.secrets ∧ c4Rec2.resourceBy = (7 : Nat) ∧
      (∀ s ∈ c4St.secrets, s.resourceBy = (7 : Nat) → s._id ≤ c4Rec2._id) ∧
      (∀ s ∈ c4St.secrets, s._id ≠ c4Rec2._id → s ∈ st2.secrets) ∧
      st2.secrets.length + 1 = c4St.secrets.length ∧
      (st2.secrets.filter (fun s => s.resourceBy == (7 : Nat))).length + 1 =
        (c4St.secrets.filter (fun s => s.resourceBy == (7 : Nat))).length :=
  revoke_deletes_latest_only ⟨7⟩ c4St 50 c4Rec2 (by decide) rfl (by decide)

end UsersService

end ExpressMicroservice
